import Mathlib

/-!
Verification of the SysAcad users app (src/users/views.py, src/users/services.py)
against its natural-language specification.

The Django views are shallowly embedded: the persistence store becomes explicit
record-of-lists state threaded through each view function, `get_or_create`
becomes a membership test plus append, `bulk_create` becomes a single list
append, and `get_object_or_404` becomes `List.find?` on the same filter
predicate the view passes to the ORM.  HTTP, sessions and templates are out of
scope (the spec treats them as external collaborators), so a view is a function
from its looked-up inputs and the store to an outcome value and a new store.
-/

namespace SysAcad

/-- User roles, from `CustomUser.Role` referenced throughout src/users/views.py:
ADMIN, STUDENT, PROFESSOR. -/
inductive Role
  | admin
  | student
  | professor
deriving DecidableEq

/-- The slice of a `CustomUser` row relevant to profile management: its role
field and which of the three one-to-one profile rows currently exist for it
(`user.student`, `user.professor`, `user.administrator`). -/
structure UserState where
  role : Role
  student : Bool
  professor : Bool
  administrator : Bool
deriving DecidableEq

/-- Outcome of `UserUpdateView.form_valid`. -/
inductive UpdateOutcome
  | success
  | formInvalid
deriving DecidableEq

/-- Persist the profile row matching a role (`profile.save()` after
`profile.user = user` in the role-matching branch). -/
def setProfile (s : UserState) (r : Role) : UserState :=
  match r with
  | Role.student => { s with student := true }
  | Role.professor => { s with professor := true }
  | Role.admin => { s with administrator := true }

/-- Embedding of `UserUpdateView.form_valid` (src/users/views.py lines 145-177).

The deletions of the mismatched profiles run BEFORE the `transaction.atomic()`
block, so they commit no matter what happens afterwards.  Inside the block,
`form.save()` persists the role change and the matching profile form is
validated; on an invalid profile form the handler returns `form_invalid` by a
normal return, which commits the block (Django only rolls an atomic block back
on an exception).  The state argument is the user row plus its profile rows;
the result is the handler outcome and the committed state. -/
def userUpdateFormValid (s : UserState) (newRole : Role) (profileFormValid : Bool) :
    UpdateOutcome × UserState :=
  let s1 :=
    if newRole ≠ s.role then
      { s with student := false, professor := false, administrator := false }
    else s
  let s2 := { s1 with role := newRole }
  if profileFormValid then
    (UpdateOutcome.success, setProfile s2 newRole)
  else
    (UpdateOutcome.formInvalid, s2)

/-- A value held by the Python sets the assignment views build:
`request.POST.getlist("professors")` yields `str` values while
`values_list("pk", flat=True)` yields `int` pks, and in Python a `str` never
compares equal to an `int`, so the two kinds live side by side in a set and
never cancel across kinds. -/
inductive PyId
  | str (v : String)
  | int (n : Nat)
deriving DecidableEq

/-- Decimal parse of a digit string, accumulator style. -/
def parseDigits : List Char → Nat → Nat
  | [], acc => acc
  | c :: cs, acc => parseDigits cs (acc * 10 + (c.toNat - Char.toNat '0'))

/-- The coercion Django applies to each argument of an M2M `add`/`remove`
call when resolving it to a pk: an int passes through, a decimal string is
converted by the pk field (`IntegerField.to_python`). -/
def pyIdPk : PyId → Nat
  | PyId.str v => parseDigits v.data 0
  | PyId.int n => n

/-- Result of one professor-assignment sync
(`assign_subject_professors` / `assign_final_professors` POST branch):
the two diffed Python sets, the professor pk set stored in the relation
afterwards, and whether the view reported a change. -/
structure AssignSync where
  to_add : Finset PyId
  to_remove : Finset PyId
  final : Finset Nat
  changed : Bool
deriving DecidableEq

/-- Embedding of the POST branch shared by `assign_subject_professors`
(src/users/views.py lines 285-309) and `assign_final_professors` (lines
342-366).  `selected_ids = set(request.POST.getlist("professors"))` is a set
of strings and `current_ids = set(...values_list("pk", flat=True))` a set of
int pks, so the diffs `to_add = selected - current` and
`to_remove = current - selected` are computed across the two kinds; when
either is nonempty, `professors.add(*to_add)` (each argument coerced to a pk)
then `professors.remove(*to_remove)` run in one transaction and the view
reports a change, otherwise the relation is untouched and the view reports no
change. -/
def syncAssignments (current_pks : Finset Nat) (selected_strs : Finset String) :
    AssignSync :=
  let selected_ids : Finset PyId := selected_strs.image PyId.str
  let current_ids : Finset PyId := current_pks.image PyId.int
  let to_add := selected_ids \ current_ids
  let to_remove := current_ids \ selected_ids
  if to_add.Nonempty ∨ to_remove.Nonempty then
    { to_add := to_add
      to_remove := to_remove
      final := (current_pks ∪ to_add.image pyIdPk) \ to_remove.image pyIdPk
      changed := true }
  else
    { to_add := to_add
      to_remove := to_remove
      final := current_pks
      changed := false }

/-- HTTP method of a request, as tested by `request.method == "POST"`. -/
inductive Method
  | GET
  | POST
deriving DecidableEq

/-- Grade status values.  Modelled from the spec: `Grade.StatusSubject` lives in
academics/models.py, which is not under src/; the spec gives the status set
{none-yet, REGULAR, other terminal states}, and the embedded views only ever
test membership in REGULAR. -/
inductive StatusSubject
  | unset
  | REGULAR
  | otherTerminal
deriving DecidableEq

/-- A `Subject` row: unique natural-key `code`, owning career, and the
many-to-many professor assignment (as the set of professor pks). -/
structure Subject where
  code : String
  career : Nat
  professors : List Nat
deriving DecidableEq

/-- A `FinalExam` row with its related subject (the views always traverse
`final_exam.subject`, e.g. `subject__career=student.career`). -/
structure FinalExam where
  id : Nat
  subject : Subject
deriving DecidableEq

/-- A `Grade` row: pk, student pk, subject code, status, and the numeric
score field.  The score field is modelled from the spec ("numeric score
entry"); academics/models.py is not under src/ and the embedded views never
read it, only `GradeForm.save` writes it. -/
structure Grade where
  id : Nat
  student : Nat
  subject : String
  status : StatusSubject
  score : Option Nat
deriving DecidableEq

/-- The persistence store slice the student/professor views touch:
`SubjectInscription` rows as (student pk, subject code) pairs,
`Grade` rows, `FinalExamInscription` rows as (student pk, final-exam pk)
pairs, and the auto-increment counter used for new Grade pks. -/
structure Store where
  subjectInscriptions : List (Nat × String)
  grades : List Grade
  finalInscriptions : List (Nat × Nat)
  nextGradeId : Nat
deriving DecidableEq

/-- `SubjectInscription.objects.get_or_create(student=student, subject=subject)`:
returns the `created` flag and the (possibly extended) store. -/
def getOrCreateSubjectInscription (store : Store) (student : Nat) (code : String) :
    Bool × Store :=
  if (student, code) ∈ store.subjectInscriptions then
    (false, store)
  else
    (true, { store with subjectInscriptions := store.subjectInscriptions ++ [(student, code)] })

/-- `Grade.objects.get_or_create(student=student, subject=subject)`: creates a
Grade row with defaulted fields when none exists for the pair. -/
def getOrCreateGrade (store : Store) (student : Nat) (code : String) : Store :=
  if store.grades.any (fun g => decide (g.student = student ∧ g.subject = code)) then
    store
  else
    { store with
      grades := store.grades ++
        [{ id := store.nextGradeId
           student := student
           subject := code
           status := StatusSubject.unset
           score := none }]
      nextGradeId := store.nextGradeId + 1 }

/-- Outcome of `subject_inscribe`: the Http404 of `get_object_or_404`, the
success / already-inscribed redirects, or the GET confirmation page. -/
inductive SubjectInscribeResult
  | notFound
  | inscribed
  | alreadyInscribed
  | renderConfirm
deriving DecidableEq

/-- Embedding of `subject_inscribe` (src/users/views.py lines 414-431).
`get_object_or_404(Subject, code=subject_code, career=student.career)` becomes
`find?` with the same predicate; on POST the view runs the two
`get_or_create` calls and reports whether the inscription was created; on GET
it renders the confirmation page and leaves the store alone. -/
def subject_inscribe (subjects : List Subject) (store : Store)
    (student : Nat) (studentCareer : Nat) (subject_code : String) (method : Method) :
    SubjectInscribeResult × Store :=
  match subjects.find? (fun s => decide (s.code = subject_code ∧ s.career = studentCareer)) with
  | none => (SubjectInscribeResult.notFound, store)
  | some subject =>
    match method with
    | Method.POST =>
      let r1 := getOrCreateSubjectInscription store student subject.code
      let store2 := getOrCreateGrade r1.2 student subject.code
      if r1.1 then
        (SubjectInscribeResult.inscribed, store2)
      else
        (SubjectInscribeResult.alreadyInscribed, store2)
    | Method.GET => (SubjectInscribeResult.renderConfirm, store)

/-- `Grade.objects.filter(student=student, subject=...).order_by("-id").first()`:
the matching Grade row with the greatest pk, if any. -/
def latestGrade (grades : List Grade) (student : Nat) (code : String) : Option Grade :=
  (grades.filter (fun g => decide (g.student = student ∧ g.subject = code))).foldl
    (fun acc g =>
      match acc with
      | none => some g
      | some b => if b.id < g.id then some g else some b)
    none

/-- Outcome of `final_exam_inscribe`: Http404, the not-regular error redirect,
the success redirect, or the GET confirmation page. -/
inductive FinalInscribeResult
  | notFound
  | notRegular
  | inscribed
  | renderConfirm
deriving DecidableEq

/-- Embedding of `final_exam_inscribe` (src/users/views.py lines 434-450).
`get_object_or_404(FinalExam, pk=final_exam_id, subject__career=student.career)`
becomes `find?` with the same predicate; the eligibility check reads the most
recent Grade for (student, subject-of-final) and rejects unless its status is
REGULAR; on POST the inscription is `get_or_create`d; on GET the confirmation
page is rendered. -/
def final_exam_inscribe (finals : List FinalExam) (store : Store)
    (student : Nat) (studentCareer : Nat) (final_exam_id : Nat) (method : Method) :
    FinalInscribeResult × Store :=
  match finals.find? (fun f => decide (f.id = final_exam_id ∧ f.subject.career = studentCareer)) with
  | none => (FinalInscribeResult.notFound, store)
  | some final_exam =>
    match latestGrade store.grades student final_exam.subject.code with
    | none => (FinalInscribeResult.notRegular, store)
    | some grade =>
      if grade.status = StatusSubject.REGULAR then
        match method with
        | Method.POST =>
          if (student, final_exam.id) ∈ store.finalInscriptions then
            (FinalInscribeResult.inscribed, store)
          else
            (FinalInscribeResult.inscribed,
             { store with
               finalInscriptions := store.finalInscriptions ++ [(student, final_exam.id)] })
        | Method.GET => (FinalInscribeResult.renderConfirm, store)
      else
        (FinalInscribeResult.notRegular, store)

/-- The list comprehension of `Grade.objects.bulk_create([Grade(student_id=sid,
subject=subject) for sid in missing_ids])`: one fresh Grade row per missing
student id, with pks assigned consecutively by the store. -/
def mkGradeRows (code : String) (nextId : Nat) : List Nat → List Grade
  | [] => []
  | sid :: rest =>
    { id := nextId
      student := sid
      subject := code
      status := StatusSubject.unset
      score := none } :: mkGradeRows code (nextId + 1) rest

/-- Outcome of `grade_list`: Http404 when the subject is not assigned to the
requesting professor, or the rendered roster. -/
inductive GradeListResult
  | notFound
  | rendered
deriving DecidableEq

/-- The view's `enrolled_student_ids`:
`set(SubjectInscription.objects.filter(subject=subject).values_list("student_id",
flat=True))`. -/
def enrolledStudentIds (store : Store) (code : String) : Finset Nat :=
  ((store.subjectInscriptions.filter (fun p => decide (p.2 = code))).map Prod.fst).toFinset

/-- The view's `existing_grade_student_ids`:
`set(Grade.objects.filter(subject=subject).values_list("student_id", flat=True))`. -/
def existingGradeStudentIds (store : Store) (code : String) : Finset Nat :=
  ((store.grades.filter (fun g => decide (g.subject = code))).map Grade.student).toFinset

/-- Embedding of `grade_list` (src/users/views.py lines 532-551).
`get_object_or_404(Subject, code=subject_code, professors=professor)` becomes
`find?`; the view collects the set of enrolled student ids and the set of
student ids that already have a Grade row for the subject, and bulk-creates a
defaulted Grade row for each id of the difference when it is nonempty. -/
def grade_list (subjects : List Subject) (store : Store)
    (professor : Nat) (subject_code : String) : GradeListResult × Store :=
  match subjects.find? (fun s => decide (s.code = subject_code ∧ professor ∈ s.professors)) with
  | none => (GradeListResult.notFound, store)
  | some subject =>
    let missing_ids :=
      enrolledStudentIds store subject.code \ existingGradeStudentIds store subject.code
    if missing_ids.Nonempty then
      let sorted := missing_ids.sort (· ≤ ·)
      (GradeListResult.rendered,
       { store with
         grades := store.grades ++ mkGradeRows subject.code store.nextGradeId sorted
         nextGradeId := store.nextGradeId + sorted.length })
    else
      (GradeListResult.rendered, store)

/-- The data a submitted `GradeForm` carries: the bound field values, Django's
`changed_data` (the fields whose submitted value differs from the initial
instance), and the `is_valid()` verdict.  The form's concrete field set lives
in academics/forms.py, which is not under src/; the status field is the one
`grade_edit` inspects, and the score field stands for the spec's "numeric
score entry". -/
structure GradeFormData where
  status : StatusSubject
  score : Option Nat
  changed_data : List String
  valid : Bool
deriving DecidableEq

/-- `form.save()` on a bound `GradeForm` with `instance=grade`: write the
form's field values onto the row. -/
def gradeFormSave (grade : Grade) (form : GradeFormData) : Grade :=
  { grade with status := form.status, score := form.score }

/-- Outcome of `grade_edit`: the two guard redirects, a successful save
(recording whether `update_status` ran), or a rendered form page (GET, or POST
with an invalid form). -/
inductive GradeEditResult
  | notAssigned
  | notInscribed
  | saved (recomputed : Bool)
  | renderForm
deriving DecidableEq

/-- Embedding of `grade_edit` (src/users/views.py lines 554-578), for a Grade
row already fetched by pk.  `update_status` is the recomputation method owned
by the Grade model (academics/models.py, not under src/), so it is a parameter
here; the view decides only when to call it.  `professorSubjects` is
`request.user.professor.subjects.all()` as a list of subject codes, and
`inscriptions` the SubjectInscription table. -/
def grade_edit (update_status : Grade → Grade)
    (professorSubjects : List String) (inscriptions : List (Nat × String))
    (grade : Grade) (method : Method) (form : GradeFormData) :
    GradeEditResult × Grade :=
  if grade.subject ∉ professorSubjects then
    (GradeEditResult.notAssigned, grade)
  else if (grade.student, grade.subject) ∉ inscriptions then
    (GradeEditResult.notInscribed, grade)
  else
    match method with
    | Method.POST =>
      if form.valid then
        let status_was_changed := "status" ∈ form.changed_data
        let saved := gradeFormSave grade form
        if status_was_changed then
          (GradeEditResult.saved false, saved)
        else
          (GradeEditResult.saved true, update_status saved)
      else
        (GradeEditResult.renderForm, grade)
    | Method.GET => (GradeEditResult.renderForm, grade)

/-- A calendar date, for `enrollment_date`. -/
structure Date where
  day : Nat
  month : Nat
  year : Nat
deriving DecidableEq

/-- Two-digit zero padding, as `strftime` applies to `%d` and `%m`. -/
def pad2 (n : Nat) : String :=
  if n < 10 then "0" ++ toString n else toString n

/-- `date.strftime("%d/%m/%Y")`. -/
def strftimeDMY (d : Date) : String :=
  pad2 d.day ++ "/" ++ pad2 d.month ++ "/" ++ toString d.year

/-- A `Faculty` row (name only; that is all the service reads). -/
structure Faculty where
  name : String
deriving DecidableEq

/-- A `Career` row with its faculty. -/
structure Career where
  name : String
  faculty : Faculty
deriving DecidableEq

/-- The slice of a `Student` row (with its related user and career) the
student-file service reads: `student_id` is the unique institutional id. -/
structure StudentRec where
  student_id : String
  full_name : String
  dni : String
  career : Career
  enrollment_date : Date
deriving DecidableEq

/-- The flat mapping returned by `StudentFileService.get_student_file_data`. -/
structure StudentFileData where
  nro_legajo : String
  apellido_nombre : String
  dni : String
  facultad_nombre : String
  carrera_nombre : String
  fecha_inscripcion : String
deriving DecidableEq

/-- Embedding of `StudentFileService.get_student_file_data`
(src/users/services.py lines 7-20): `Student.objects.get(student_id=...)`
projected to the flat field mapping, `None` when no such student exists. -/
def get_student_file_data (students : List StudentRec) (student_id : String) :
    Option StudentFileData :=
  match students.find? (fun s => decide (s.student_id = student_id)) with
  | none => none
  | some student =>
    some
      { nro_legajo := student.student_id
        apellido_nombre := student.full_name
        dni := student.dni
        facultad_nombre := student.career.faculty.name
        carrera_nombre := student.career.name
        fecha_inscripcion := strftimeDMY student.enrollment_date }

/-- A JSON response: `JsonResponse({'error': ...}, status=404)` or
`JsonResponse(student_data)` (status 200). -/
inductive JsonResp
  | error (status : Nat) (msg : String)
  | ok (data : StudentFileData)
deriving DecidableEq

/-- Embedding of `StudentFileJSONView.get` (src/users/views.py lines 648-654).
The store is threaded through unchanged to make the absence of mutation a
stated fact rather than a convention. -/
def studentFileJSONView (students : List StudentRec) (store : Store)
    (student_id : String) : (JsonResp × Store) :=
  match get_student_file_data students student_id with
  | none => (JsonResp.error 404 "Ficha de Alumno no encontrada.", store)
  | some student_data => (JsonResp.ok student_data, store)

/-! ### Theorems -/

/-- C1: the claim requires that on a role change the deletion of the mismatched
profile and the persistence of the new role's profile are one atomic action, so
no reachable outcome has the old profile deleted while the new profile was not
saved.  The code deletes the old profiles BEFORE entering the
`transaction.atomic()` block, so when the new profile form is invalid the
handler returns `form_invalid` with the old profile already gone and no new
profile saved.  Evaluated at the failing input: a user with role STUDENT and an
existing student profile, updated to role PROFESSOR with an invalid professor
profile form — the resulting committed state has every profile deleted and the
role already flipped. -/
theorem userUpdate_role_change_partial_state :
    userUpdateFormValid
      { role := Role.student, student := true, professor := false, administrator := false }
      Role.professor false
    = (UpdateOutcome.formInvalid,
       { role := Role.professor, student := false, professor := false,
         administrator := false }) := by
  decide

/-- C2: the claim says the sync adds exactly requested − current, removes
exactly current − requested, ends with the professor set equal to the
requested set, and no-ops on a second identical request.  The view diffs the
POST strings against the integer pks, and a Python `str` never equals an
`int`, so the diffs never cancel: evaluated at the spec's own example —
current pks {1, 2}, requested professors submitted as the strings "2" and "3"
— `to_add` is all of the selected strings, `to_remove` is all of the current
pks, the final professor set is {3} (requested minus current, after Django
coerces the add/remove arguments back to pks) instead of the requested
{2, 3}, and resubmitting the identical request against the resulting set
reports a change again and mutates the set again, to {2}. -/
theorem syncAssignments_type_mismatch :
    (syncAssignments {1, 2} {"2", "3"}).to_add =
      ({"2", "3"} : Finset String).image PyId.str ∧
    (syncAssignments {1, 2} {"2", "3"}).to_remove =
      ({1, 2} : Finset Nat).image PyId.int ∧
    (syncAssignments {1, 2} {"2", "3"}).final = {3} ∧
    (syncAssignments {1, 2} {"2", "3"}).final ≠ {2, 3} ∧
    (syncAssignments {1, 2} {"2", "3"}).changed = true ∧
    (syncAssignments (syncAssignments {1, 2} {"2", "3"}).final {"2", "3"}).changed =
      true ∧
    (syncAssignments (syncAssignments {1, 2} {"2", "3"}).final {"2", "3"}).final =
      {2} := by
  decide

/-- Number of `SubjectInscription` rows for an exact (student, subject) pair. -/
def subjInsCount (store : Store) (student : Nat) (code : String) : Nat :=
  (store.subjectInscriptions.filter (fun p => decide (p = (student, code)))).length

/-- Number of `Grade` rows for a (student, subject) pair. -/
def gradeCount (store : Store) (student : Nat) (code : String) : Nat :=
  (store.grades.filter (fun g => decide (g.student = student ∧ g.subject = code))).length

/-- Number of `FinalExamInscription` rows for an exact (student, final) pair. -/
def finalInsCount (store : Store) (student : Nat) (fid : Nat) : Nat :=
  (store.finalInscriptions.filter (fun p => decide (p = (student, fid)))).length

theorem filter_eq_self_length_zero {α : Type} [DecidableEq α] (l : List α) (x : α) :
    (l.filter (fun p => decide (p = x))).length = 0 ↔ x ∉ l := by
  rw [List.length_eq_zero, List.filter_eq_nil_iff]
  constructor
  · intro h hx
    exact h x hx (by simp)
  · intro h a ha
    simp only [decide_eq_true_eq]
    intro hax
    exact h (hax ▸ ha)

theorem subjInsCount_eq_zero (store : Store) (student : Nat) (code : String) :
    subjInsCount store student code = 0 ↔
      (student, code) ∉ store.subjectInscriptions :=
  filter_eq_self_length_zero store.subjectInscriptions (student, code)

theorem finalInsCount_eq_zero (store : Store) (student : Nat) (fid : Nat) :
    finalInsCount store student fid = 0 ↔
      (student, fid) ∉ store.finalInscriptions :=
  filter_eq_self_length_zero store.finalInscriptions (student, fid)

theorem gradeCount_eq_zero (store : Store) (student : Nat) (code : String) :
    gradeCount store student code = 0 ↔
      ∀ g ∈ store.grades, ¬(g.student = student ∧ g.subject = code) := by
  rw [gradeCount, List.length_eq_zero, List.filter_eq_nil_iff]
  simp

theorem grades_any_eq_false (store : Store) (student : Nat) (code : String) :
    (store.grades.any (fun g => decide (g.student = student ∧ g.subject = code)) = false) ↔
      gradeCount store student code = 0 := by
  rw [List.any_eq_false, gradeCount_eq_zero]
  simp

theorem subject_inscribe_post_fresh
    (subjects : List Subject) (store : Store) (student career : Nat) (code : String)
    (subject : Subject)
    (hfind : subjects.find?
      (fun s => decide (s.code = code ∧ s.career = career)) = some subject)
    (hmem : (student, subject.code) ∉ store.subjectInscriptions)
    (hgr : gradeCount store student subject.code = 0) :
    subject_inscribe subjects store student career code Method.POST =
      (SubjectInscribeResult.inscribed,
       { store with
         subjectInscriptions := store.subjectInscriptions ++ [(student, subject.code)]
         grades := store.grades ++
           [{ id := store.nextGradeId
              student := student
              subject := subject.code
              status := StatusSubject.unset
              score := none }]
         nextGradeId := store.nextGradeId + 1 }) := by
  have hany := (grades_any_eq_false store student subject.code).mpr hgr
  simp only [subject_inscribe, hfind, getOrCreateSubjectInscription, if_neg hmem,
    getOrCreateGrade]
  rw [hany]
  simp

theorem subject_inscribe_post_existing
    (subjects : List Subject) (store : Store) (student career : Nat) (code : String)
    (subject : Subject)
    (hfind : subjects.find?
      (fun s => decide (s.code = code ∧ s.career = career)) = some subject)
    (hmem : (student, subject.code) ∈ store.subjectInscriptions)
    (hany : store.grades.any
      (fun g => decide (g.student = student ∧ g.subject = subject.code)) = true) :
    subject_inscribe subjects store student career code Method.POST =
      (SubjectInscribeResult.alreadyInscribed, store) := by
  simp only [subject_inscribe, hfind, getOrCreateSubjectInscription, if_pos hmem,
    getOrCreateGrade]
  rw [hany]
  simp

/-- C4: for a subject that exists in the student's career, enrolling twice from
a store with no inscription and no grade for the pair yields: the first POST
reports a created inscription and leaves exactly one SubjectInscription row and
exactly one Grade row for (student, subject); the second POST is a no-op
success reported as already-enrolled that leaves the store untouched, so both
rows still exist. -/
theorem subject_inscribe_idempotent
    (subjects : List Subject) (store : Store) (student career : Nat) (code : String)
    (subject : Subject)
    (hfind : subjects.find?
      (fun s => decide (s.code = code ∧ s.career = career)) = some subject)
    (hins0 : subjInsCount store student subject.code = 0)
    (hgr0 : gradeCount store student subject.code = 0) :
    (subject_inscribe subjects store student career code Method.POST).1 =
        SubjectInscribeResult.inscribed ∧
    subjInsCount (subject_inscribe subjects store student career code Method.POST).2
        student subject.code = 1 ∧
    gradeCount (subject_inscribe subjects store student career code Method.POST).2
        student subject.code = 1 ∧
    subject_inscribe subjects
        (subject_inscribe subjects store student career code Method.POST).2
        student career code Method.POST =
      (SubjectInscribeResult.alreadyInscribed,
       (subject_inscribe subjects store student career code Method.POST).2) := by
  have hmem := (subjInsCount_eq_zero store student subject.code).mp hins0
  have h1 := subject_inscribe_post_fresh subjects store student career code subject
    hfind hmem hgr0
  rw [h1]
  have hcnt1 : subjInsCount
      { store with
        subjectInscriptions := store.subjectInscriptions ++ [(student, subject.code)]
        grades := store.grades ++
          [{ id := store.nextGradeId
             student := student
             subject := subject.code
             status := StatusSubject.unset
             score := none }]
        nextGradeId := store.nextGradeId + 1 } student subject.code = 1 := by
    have h0 : (store.subjectInscriptions.filter
        (fun p => decide (p = (student, subject.code)))).length = 0 := hins0
    simp only [subjInsCount, List.filter_append, List.length_append, h0]
    simp
  have hcntg : gradeCount
      { store with
        subjectInscriptions := store.subjectInscriptions ++ [(student, subject.code)]
        grades := store.grades ++
          [{ id := store.nextGradeId
             student := student
             subject := subject.code
             status := StatusSubject.unset
             score := none }]
        nextGradeId := store.nextGradeId + 1 } student subject.code = 1 := by
    have h0 : (store.grades.filter
        (fun g => decide (g.student = student ∧ g.subject = subject.code))).length = 0 := hgr0
    simp only [gradeCount, List.filter_append, List.length_append, h0]
    simp
  refine ⟨rfl, hcnt1, hcntg, ?_⟩
  exact subject_inscribe_post_existing subjects _ student career code subject hfind
    (by simp) (by simp)

/-- C4 witness: a one-subject catalogue and an empty store. -/
theorem subject_inscribe_idempotent_witness :
    ([{ code := "MAT1", career := 1, professors := [9] }] : List Subject).find?
        (fun s => decide (s.code = "MAT1" ∧ s.career = 1)) =
      some { code := "MAT1", career := 1, professors := [9] } ∧
    (subject_inscribe [{ code := "MAT1", career := 1, professors := [9] }]
        { subjectInscriptions := [], grades := [], finalInscriptions := [], nextGradeId := 0 }
        7 1 "MAT1" Method.POST).1 = SubjectInscribeResult.inscribed :=
  ⟨by decide,
   (subject_inscribe_idempotent [{ code := "MAT1", career := 1, professors := [9] }]
      { subjectInscriptions := [], grades := [], finalInscriptions := [], nextGradeId := 0 }
      7 1 "MAT1" { code := "MAT1", career := 1, professors := [9] }
      (by decide) (by decide) (by decide)).1⟩

/-- C3: for a final exam found in the student's career, `final_exam_inscribe`
rejects with the ineligibility redirect exactly when the most recent Grade for
(student, subject-of-final) is missing or not REGULAR, and then changes
nothing; when that Grade is REGULAR a POST succeeds, the inscription exists
afterwards, and a repeated POST returns the same success leaving the store
untouched; the pair never accumulates more than one inscription row. -/
theorem final_exam_inscribe_eligibility
    (finals : List FinalExam) (store : Store) (student career fid : Nat)
    (method : Method) (final_exam : FinalExam)
    (hfind : finals.find?
      (fun f => decide (f.id = fid ∧ f.subject.career = career)) = some final_exam) :
    ((final_exam_inscribe finals store student career fid method).1 =
        FinalInscribeResult.notRegular ↔
      ¬∃ g, latestGrade store.grades student final_exam.subject.code = some g ∧
          g.status = StatusSubject.REGULAR) ∧
    ((final_exam_inscribe finals store student career fid method).1 =
        FinalInscribeResult.notRegular →
      (final_exam_inscribe finals store student career fid method).2 = store) ∧
    ((∃ g, latestGrade store.grades student final_exam.subject.code = some g ∧
        g.status = StatusSubject.REGULAR) →
      (final_exam_inscribe finals store student career fid Method.POST).1 =
          FinalInscribeResult.inscribed ∧
      (student, final_exam.id) ∈
        (final_exam_inscribe finals store student career fid
          Method.POST).2.finalInscriptions ∧
      final_exam_inscribe finals
          (final_exam_inscribe finals store student career fid Method.POST).2
          student career fid Method.POST =
        (FinalInscribeResult.inscribed,
         (final_exam_inscribe finals store student career fid Method.POST).2)) ∧
    (finalInsCount store student final_exam.id ≤ 1 →
      finalInsCount (final_exam_inscribe finals store student career fid method).2
        student final_exam.id ≤ 1) := by
  rcases hlg : latestGrade store.grades student final_exam.subject.code with _ | g
  · have hr : ∀ m, final_exam_inscribe finals store student career fid m =
        (FinalInscribeResult.notRegular, store) := by
      intro m
      simp only [final_exam_inscribe, hfind, hlg]
    refine ⟨by simp [hr method, hlg], by simp [hr method], ?_, by simp [hr method]⟩
    rintro ⟨g, hg, -⟩
    simp at hg
  · by_cases hst : g.status = StatusSubject.REGULAR
    · have hexists : ∃ g', some g = some g' ∧ g'.status = StatusSubject.REGULAR :=
        ⟨g, rfl, hst⟩
      by_cases hmem : (student, final_exam.id) ∈ store.finalInscriptions
      · have hrP : final_exam_inscribe finals store student career fid Method.POST =
            (FinalInscribeResult.inscribed, store) := by
          simp only [final_exam_inscribe, hfind, hlg, if_pos hst, if_pos hmem]
        have hrG : final_exam_inscribe finals store student career fid Method.GET =
            (FinalInscribeResult.renderConfirm, store) := by
          simp only [final_exam_inscribe, hfind, hlg, if_pos hst]
        refine ⟨?_, ?_, fun _ => ⟨by simp [hrP], by simp [hrP]; exact hmem, ?_⟩, ?_⟩
        · cases method
          · exact iff_of_false (by simp [hrG]) (not_not_intro hexists)
          · exact iff_of_false (by simp [hrP]) (not_not_intro hexists)
        · cases method
          · simp [hrG]
          · simp [hrP]
        · rw [hrP]
          exact hrP
        · cases method
          · simp [hrG]
          · simp [hrP]
      · have h0 : finalInsCount store student final_exam.id = 0 :=
          (finalInsCount_eq_zero store student final_exam.id).mpr hmem
        have hrP : final_exam_inscribe finals store student career fid Method.POST =
            (FinalInscribeResult.inscribed,
             { store with
               finalInscriptions :=
                 store.finalInscriptions ++ [(student, final_exam.id)] }) := by
          simp only [final_exam_inscribe, hfind, hlg, if_pos hst, if_neg hmem]
        have hrG : final_exam_inscribe finals store student career fid Method.GET =
            (FinalInscribeResult.renderConfirm, store) := by
          simp only [final_exam_inscribe, hfind, hlg, if_pos hst]
        have hmem1 : (student, final_exam.id) ∈
            ({ store with
               finalInscriptions :=
                 store.finalInscriptions ++ [(student, final_exam.id)] } :
              Store).finalInscriptions := by
          simp
        refine ⟨?_, ?_, fun _ => ⟨by simp [hrP], by rw [hrP]; exact hmem1, ?_⟩, ?_⟩
        · cases method
          · exact iff_of_false (by simp [hrG]) (not_not_intro hexists)
          · exact iff_of_false (by simp [hrP]) (not_not_intro hexists)
        · cases method
          · simp [hrG]
          · simp [hrP]
        · rw [hrP]
          simp only [final_exam_inscribe, hfind, hlg, if_pos hst, if_pos hmem1]
        · cases method
          · simp [hrG]
          · rw [hrP]
            intro _
            have h0f : (store.finalInscriptions.filter
                (fun p => decide (p = (student, final_exam.id)))).length = 0 := h0
            simp only [finalInsCount, List.filter_append, List.length_append, h0f]
            simp
    · have hr : ∀ m, final_exam_inscribe finals store student career fid m =
          (FinalInscribeResult.notRegular, store) := by
        intro m
        simp only [final_exam_inscribe, hfind, hlg, if_neg hst]
      refine ⟨?_, by simp [hr method], ?_, by simp [hr method]⟩
      · refine iff_of_true (by simp [hr method]) ?_
        rintro ⟨g', hg', hst'⟩
        cases hg'
        exact hst hst'
      · rintro ⟨g', hg', hst'⟩
        cases hg'
        exact absurd hst' hst

/-- C3 witness: one final in career 1 whose subject grade is REGULAR. -/
theorem final_exam_inscribe_eligibility_witness :
    ([{ id := 5, subject := { code := "MAT1", career := 1, professors := [9] } }] :
        List FinalExam).find?
      (fun f => decide (f.id = 5 ∧ f.subject.career = 1)) =
        some { id := 5, subject := { code := "MAT1", career := 1, professors := [9] } } ∧
    ((final_exam_inscribe
        [{ id := 5, subject := { code := "MAT1", career := 1, professors := [9] } }]
        { subjectInscriptions := [(7, "MAT1")]
          grades := [{ id := 1, student := 7, subject := "MAT1",
                       status := StatusSubject.REGULAR, score := none }]
          finalInscriptions := []
          nextGradeId := 2 }
        7 1 5 Method.POST).1 = FinalInscribeResult.notRegular ↔
      ¬∃ g, latestGrade
          [{ id := 1, student := 7, subject := "MAT1",
             status := StatusSubject.REGULAR, score := none }] 7 "MAT1" = some g ∧
          g.status = StatusSubject.REGULAR) :=
  ⟨by decide,
   (final_exam_inscribe_eligibility
      [{ id := 5, subject := { code := "MAT1", career := 1, professors := [9] } }]
      { subjectInscriptions := [(7, "MAT1")]
        grades := [{ id := 1, student := 7, subject := "MAT1",
                     status := StatusSubject.REGULAR, score := none }]
        finalInscriptions := []
        nextGradeId := 2 }
      7 1 5 Method.POST
      { id := 5, subject := { code := "MAT1", career := 1, professors := [9] } }
      (by decide)).1⟩

/-- C5: on a valid POST grade edit that passes both guards, the status
recomputation is skipped exactly when the status field is among the form's
changed fields — the submitted status is then stored verbatim — and it is
invoked on the saved row exactly when the edit did not touch the status field;
the recorded `recomputed` flag makes the two branches mutually exclusive and
exhaustive. -/
theorem grade_edit_status_branch (update_status : Grade → Grade)
    (professorSubjects : List String) (inscriptions : List (Nat × String))
    (grade : Grade) (form : GradeFormData)
    (h1 : grade.subject ∈ professorSubjects)
    (h2 : (grade.student, grade.subject) ∈ inscriptions)
    (h3 : form.valid = true) :
    ("status" ∈ form.changed_data →
      grade_edit update_status professorSubjects inscriptions grade Method.POST form =
        (GradeEditResult.saved false, gradeFormSave grade form)) ∧
    ("status" ∉ form.changed_data →
      grade_edit update_status professorSubjects inscriptions grade Method.POST form =
        (GradeEditResult.saved true, update_status (gradeFormSave grade form))) ∧
    (gradeFormSave grade form).status = form.status := by
  have hbase : ∀ r : GradeEditResult × Grade,
      (if "status" ∈ form.changed_data then
        (GradeEditResult.saved false, gradeFormSave grade form)
      else
        (GradeEditResult.saved true, update_status (gradeFormSave grade form))) = r →
      grade_edit update_status professorSubjects inscriptions grade Method.POST form = r := by
    intro r hr
    simp only [grade_edit, if_neg (not_not_intro h1), if_neg (not_not_intro h2)]
    rw [h3]
    simpa using hr
  refine ⟨?_, ?_, rfl⟩
  · intro hmem
    exact hbase _ (if_pos hmem)
  · intro hmem
    exact hbase _ (if_neg hmem)

/-- C5 witness: a score-only edit on a concrete grade invokes the
recomputation function. -/
theorem grade_edit_status_branch_witness :
    ("status" : String) ∉ ["score"] ∧
    grade_edit (fun g => { g with status := StatusSubject.otherTerminal })
        ["MAT1"] [(7, "MAT1")]
        { id := 1, student := 7, subject := "MAT1", status := StatusSubject.unset,
          score := none }
        Method.POST
        { status := StatusSubject.unset, score := some 8, changed_data := ["score"],
          valid := true } =
      (GradeEditResult.saved true,
       { id := 1, student := 7, subject := "MAT1", status := StatusSubject.otherTerminal,
         score := some 8 }) :=
  ⟨by decide,
   (grade_edit_status_branch (fun g => { g with status := StatusSubject.otherTerminal })
      ["MAT1"] [(7, "MAT1")]
      { id := 1, student := 7, subject := "MAT1", status := StatusSubject.unset,
        score := none }
      { status := StatusSubject.unset, score := some 8, changed_data := ["score"],
        valid := true }
      (by decide) (by decide) rfl).2.1 (by decide)⟩

/-- C9: both guard rejections of `grade_edit` — subject not assigned to the
requesting professor, or, the subject being assigned, no SubjectInscription for
(student, subject) — redirect and return the Grade row completely unchanged,
with the recomputation never invoked (the result carries the original row for
every method and form). -/
theorem grade_edit_guard_rejections (update_status : Grade → Grade)
    (professorSubjects : List String) (inscriptions : List (Nat × String))
    (grade : Grade) (method : Method) (form : GradeFormData) :
    (grade.subject ∉ professorSubjects →
      grade_edit update_status professorSubjects inscriptions grade method form =
        (GradeEditResult.notAssigned, grade)) ∧
    (grade.subject ∈ professorSubjects →
      (grade.student, grade.subject) ∉ inscriptions →
      grade_edit update_status professorSubjects inscriptions grade method form =
        (GradeEditResult.notInscribed, grade)) := by
  constructor
  · intro hout
    simp only [grade_edit, if_pos hout]
  · intro hin hnoins
    simp only [grade_edit, if_neg (not_not_intro hin), if_pos hnoins]

/-- C9 witness: a grade for a subject outside the professor's assignments is
rejected unchanged. -/
theorem grade_edit_guard_rejections_witness :
    ("FIS1" : String) ∉ ["MAT1"] ∧
    grade_edit (fun g => g) ["MAT1"] [(7, "FIS1")]
        { id := 1, student := 7, subject := "FIS1", status := StatusSubject.unset,
          score := none }
        Method.POST
        { status := StatusSubject.REGULAR, score := some 9, changed_data := ["status"],
          valid := true } =
      (GradeEditResult.notAssigned,
       { id := 1, student := 7, subject := "FIS1", status := StatusSubject.unset,
         score := none }) :=
  ⟨by decide,
   (grade_edit_guard_rejections (fun g => g) ["MAT1"] [(7, "FIS1")]
      { id := 1, student := 7, subject := "FIS1", status := StatusSubject.unset,
        score := none }
      Method.POST
      { status := StatusSubject.REGULAR, score := some 9, changed_data := ["status"],
        valid := true }).1 (by decide)⟩

theorem mkGradeRows_count (code : String) (sids : List Nat) (sid : Nat) :
    ∀ nid, ((mkGradeRows code nid sids).filter
      (fun g => decide (g.student = sid ∧ g.subject = code))).length = sids.count sid := by
  induction sids with
  | nil => intro nid; rfl
  | cons x rest ih =>
    intro nid
    rw [mkGradeRows, List.filter_cons, List.count_cons]
    by_cases hx : x = sid
    · rw [if_pos (by simp [hx]), if_pos (by simp [hx]), List.length_cons, ih (nid + 1)]
    · rw [if_neg (by simp [hx]), if_neg (by simp [hx]), ih (nid + 1), Nat.add_zero]

theorem mkGradeRows_map_student (code : String) (sids : List Nat) :
    ∀ nid, (mkGradeRows code nid sids).map Grade.student = sids := by
  induction sids with
  | nil => intro nid; rfl
  | cons x rest ih =>
    intro nid
    simp [mkGradeRows, ih (nid + 1)]

theorem mkGradeRows_fields (code : String) (sids : List Nat) :
    ∀ nid, ∀ g ∈ mkGradeRows code nid sids,
      g.status = StatusSubject.unset ∧ g.subject = code := by
  induction sids with
  | nil => intro nid g hg; cases hg
  | cons x rest ih =>
    intro nid g hg
    rcases List.mem_cons.mp hg with rfl | hg
    · exact ⟨rfl, rfl⟩
    · exact ih (nid + 1) g hg

theorem mkGradeRows_filter_subject (code : String) (sids : List Nat) :
    ∀ nid, (mkGradeRows code nid sids).filter (fun g => decide (g.subject = code)) =
      mkGradeRows code nid sids := by
  induction sids with
  | nil => intro nid; rfl
  | cons x rest ih =>
    intro nid
    simp [mkGradeRows, List.filter_cons, ih (nid + 1)]

theorem mem_enrolledStudentIds (store : Store) (code : String) (sid : Nat) :
    sid ∈ enrolledStudentIds store code ↔ (sid, code) ∈ store.subjectInscriptions := by
  simp only [enrolledStudentIds, List.mem_toFinset, List.mem_map, List.mem_filter,
    decide_eq_true_eq]
  constructor
  · rintro ⟨⟨a, b⟩, ⟨hp, hb⟩, rfl⟩
    subst hb
    exact hp
  · intro h
    exact ⟨(sid, code), ⟨h, rfl⟩, rfl⟩

theorem mem_existingGradeStudentIds (store : Store) (code : String) (sid : Nat) :
    sid ∈ existingGradeStudentIds store code ↔ ¬gradeCount store sid code = 0 := by
  rw [gradeCount_eq_zero]
  simp only [existingGradeStudentIds, List.mem_toFinset, List.mem_map, List.mem_filter,
    decide_eq_true_eq, not_forall]
  constructor
  · rintro ⟨g, ⟨hg, hsub⟩, hstu⟩
    exact ⟨g, hg, fun hc => hc ⟨hstu, hsub⟩⟩
  · rintro ⟨g, hg, hc⟩
    rw [not_not] at hc
    exact ⟨g, ⟨hg, hc.2⟩, hc.1⟩

theorem grade_list_noop
    (subjects : List Subject) (store : Store) (professor : Nat) (code : String)
    (subject : Subject)
    (hfind : subjects.find?
      (fun s => decide (s.code = code ∧ professor ∈ s.professors)) = some subject)
    (hempty : ¬(enrolledStudentIds store subject.code \
      existingGradeStudentIds store subject.code).Nonempty) :
    grade_list subjects store professor code = (GradeListResult.rendered, store) := by
  simp only [grade_list, hfind]
  rw [if_neg hempty]

/-- C6: for a subject assigned to the requesting professor, `grade_list`
backfills exactly the students that have a SubjectInscription for the subject
but no Grade row — each of their per-pair Grade counts goes from 0 to 1 while
every other count is unchanged — the new rows all carry the default unset
status, the backfill is one batch append to the grades table that touches no
other table, and a second run on the resulting store is a no-op. -/
theorem grade_list_backfill
    (subjects : List Subject) (store : Store) (professor : Nat) (code : String)
    (subject : Subject)
    (hfind : subjects.find?
      (fun s => decide (s.code = code ∧ professor ∈ s.professors)) = some subject) :
    (grade_list subjects store professor code).1 = GradeListResult.rendered ∧
    (∀ sid : Nat,
      gradeCount (grade_list subjects store professor code).2 sid subject.code =
        gradeCount store sid subject.code +
          (if gradeCount store sid subject.code = 0 ∧
              (sid, subject.code) ∈ store.subjectInscriptions then 1 else 0)) ∧
    (∀ g ∈ (grade_list subjects store professor code).2.grades,
      g ∈ store.grades ∨ (g.status = StatusSubject.unset ∧ g.subject = subject.code)) ∧
    (∃ batch, (grade_list subjects store professor code).2.grades =
      store.grades ++ batch) ∧
    (grade_list subjects store professor code).2.subjectInscriptions =
      store.subjectInscriptions ∧
    (grade_list subjects store professor code).2.finalInscriptions =
      store.finalInscriptions ∧
    grade_list subjects (grade_list subjects store professor code).2 professor code =
      (GradeListResult.rendered, (grade_list subjects store professor code).2) := by
  have hmiss : ∀ sid, sid ∈ enrolledStudentIds store subject.code \
      existingGradeStudentIds store subject.code ↔
      (gradeCount store sid subject.code = 0 ∧
        (sid, subject.code) ∈ store.subjectInscriptions) := by
    intro sid
    rw [Finset.mem_sdiff, mem_enrolledStudentIds, mem_existingGradeStudentIds, not_not]
    tauto
  by_cases hne : (enrolledStudentIds store subject.code \
      existingGradeStudentIds store subject.code).Nonempty
  · have hr : grade_list subjects store professor code =
        (GradeListResult.rendered,
         { store with
           grades := store.grades ++ mkGradeRows subject.code store.nextGradeId
             ((enrolledStudentIds store subject.code \
               existingGradeStudentIds store subject.code).sort (· ≤ ·))
           nextGradeId := store.nextGradeId +
             ((enrolledStudentIds store subject.code \
               existingGradeStudentIds store subject.code).sort (· ≤ ·)).length }) := by
      simp only [grade_list, hfind]
      rw [if_pos hne]
    have hsortmem : ∀ sid, sid ∈ (enrolledStudentIds store subject.code \
        existingGradeStudentIds store subject.code).sort (· ≤ ·) ↔
        sid ∈ enrolledStudentIds store subject.code \
          existingGradeStudentIds store subject.code :=
      fun sid => Finset.mem_sort (· ≤ ·)
    have hcount : ∀ sid,
        gradeCount (grade_list subjects store professor code).2 sid subject.code =
          gradeCount store sid subject.code +
            (if gradeCount store sid subject.code = 0 ∧
                (sid, subject.code) ∈ store.subjectInscriptions then 1 else 0) := by
      intro sid
      rw [hr]
      show (List.filter _ (store.grades ++ _)).length = _
      rw [List.filter_append, List.length_append]
      congr 1
      rw [mkGradeRows_count]
      by_cases hin : gradeCount store sid subject.code = 0 ∧
          (sid, subject.code) ∈ store.subjectInscriptions
      · rw [if_pos hin]
        exact List.count_eq_one_of_mem
          (Finset.sort_nodup _ _) ((hsortmem sid).mpr ((hmiss sid).mpr hin))
      · rw [if_neg hin]
        exact List.count_eq_zero_of_not_mem
          (fun hc => hin ((hmiss sid).mp ((hsortmem sid).mp hc)))
    have hexisting : existingGradeStudentIds (grade_list subjects store professor
        code).2 subject.code =
        existingGradeStudentIds store subject.code ∪
          (enrolledStudentIds store subject.code \
            existingGradeStudentIds store subject.code) := by
      rw [hr]
      show ((List.filter _ (store.grades ++ _)).map Grade.student).toFinset = _
      rw [List.filter_append, mkGradeRows_filter_subject, List.map_append,
        mkGradeRows_map_student, List.toFinset_append, Finset.sort_toFinset]
      rfl
    have henrolled : enrolledStudentIds (grade_list subjects store professor
        code).2 subject.code = enrolledStudentIds store subject.code := by
      rw [hr]
      rfl
    have hempty : enrolledStudentIds (grade_list subjects store professor code).2
        subject.code \
        existingGradeStudentIds (grade_list subjects store professor code).2
          subject.code = ∅ := by
      rw [henrolled, hexisting]
      ext a
      simp only [Finset.mem_sdiff, Finset.mem_union, Finset.not_mem_empty, iff_false,
        not_and, not_not]
      tauto
    refine ⟨by rw [hr], hcount, ?_, ?_, by rw [hr], by rw [hr], ?_⟩
    · intro g hg
      rw [hr] at hg
      rcases List.mem_append.mp hg with hg | hg
      · exact Or.inl hg
      · exact Or.inr (mkGradeRows_fields _ _ _ g hg)
    · exact ⟨_, by rw [hr]⟩
    · exact grade_list_noop subjects _ professor code subject hfind
        (by rw [hempty]; exact Finset.not_nonempty_empty)
  · have hr : grade_list subjects store professor code =
        (GradeListResult.rendered, store) := by
      simp only [grade_list, hfind]
      rw [if_neg hne]
    have hnone : ∀ sid, ¬(gradeCount store sid subject.code = 0 ∧
        (sid, subject.code) ∈ store.subjectInscriptions) := by
      intro sid hc
      exact hne ⟨sid, (hmiss sid).mpr hc⟩
    refine ⟨by rw [hr], ?_, ?_, ⟨[], by rw [hr]; simp⟩, by rw [hr], by rw [hr], ?_⟩
    · intro sid
      rw [hr, if_neg (hnone sid)]
      rfl
    · intro g hg
      rw [hr] at hg
      exact Or.inl hg
    · exact grade_list_noop subjects _ professor code subject hfind
        (by rw [hr]; exact hne)

/-- C6 witness: two inscribed students, one of whom already has a grade. -/
theorem grade_list_backfill_witness :
    ([{ code := "MAT1", career := 1, professors := [9] }] : List Subject).find?
        (fun s => decide (s.code = "MAT1" ∧ 9 ∈ s.professors)) =
      some { code := "MAT1", career := 1, professors := [9] } ∧
    (grade_list [{ code := "MAT1", career := 1, professors := [9] }]
        { subjectInscriptions := [(7, "MAT1"), (8, "MAT1")]
          grades := [{ id := 0, student := 7, subject := "MAT1",
                       status := StatusSubject.REGULAR, score := none }]
          finalInscriptions := []
          nextGradeId := 1 }
        9 "MAT1").1 = GradeListResult.rendered :=
  ⟨by decide,
   (grade_list_backfill [{ code := "MAT1", career := 1, professors := [9] }]
      { subjectInscriptions := [(7, "MAT1"), (8, "MAT1")]
        grades := [{ id := 0, student := 7, subject := "MAT1",
                     status := StatusSubject.REGULAR, score := none }]
        finalInscriptions := []
        nextGradeId := 1 }
      9 "MAT1" { code := "MAT1", career := 1, professors := [9] } (by decide)).1⟩

/-- C7: the student-file JSON endpoint answers HTTP 404 with an error body
exactly when no Student carries the requested institutional id, and otherwise
returns precisely the flat six-field mapping with the enrollment date formatted
`%d/%m/%Y`; in both cases the store is returned unchanged. -/
theorem studentFileJSONView_spec (students : List StudentRec) (store : Store)
    (student_id : String) :
    ((∀ s ∈ students, ¬s.student_id = student_id) →
      studentFileJSONView students store student_id =
        (JsonResp.error 404 "Ficha de Alumno no encontrada.", store)) ∧
    (∀ st, students.find? (fun s => decide (s.student_id = student_id)) = some st →
      studentFileJSONView students store student_id =
        (JsonResp.ok
          { nro_legajo := st.student_id
            apellido_nombre := st.full_name
            dni := st.dni
            facultad_nombre := st.career.faculty.name
            carrera_nombre := st.career.name
            fecha_inscripcion := strftimeDMY st.enrollment_date }, store)) ∧
    (studentFileJSONView students store student_id).2 = store := by
  refine ⟨?_, ?_, ?_⟩
  · intro h
    have hnone : students.find? (fun s => decide (s.student_id = student_id)) = none := by
      rw [List.find?_eq_none]
      intro s hs
      simp [h s hs]
    simp only [studentFileJSONView, get_student_file_data, hnone]
  · intro st hst
    simp only [studentFileJSONView, get_student_file_data, hst]
  · rcases hf : students.find? (fun s => decide (s.student_id = student_id)) with _ | st
    · simp only [studentFileJSONView, get_student_file_data, hf]
    · simp only [studentFileJSONView, get_student_file_data, hf]

/-- C7 witness: the empty student table yields the 404 error response. -/
theorem studentFileJSONView_spec_witness :
    (∀ s ∈ ([] : List StudentRec), ¬s.student_id = "L123") ∧
    studentFileJSONView []
        { subjectInscriptions := [], grades := [], finalInscriptions := [], nextGradeId := 0 }
        "L123" =
      (JsonResp.error 404 "Ficha de Alumno no encontrada.",
       { subjectInscriptions := [], grades := [], finalInscriptions := [], nextGradeId := 0 }) :=
  ⟨by simp,
   (studentFileJSONView_spec []
      { subjectInscriptions := [], grades := [], finalInscriptions := [], nextGradeId := 0 }
      "L123").1 (by simp)⟩

theorem getOrCreateGrade_subjIns (store : Store) (student : Nat) (code : String) :
    (getOrCreateGrade store student code).subjectInscriptions =
      store.subjectInscriptions := by
  rw [getOrCreateGrade]
  split <;> rfl

theorem subject_inscribe_post_subjIns
    (subjects : List Subject) (store : Store) (student career : Nat) (code : String)
    (subject : Subject)
    (hfind : subjects.find?
      (fun s => decide (s.code = code ∧ s.career = career)) = some subject) :
    (subject_inscribe subjects store student career code
        Method.POST).2.subjectInscriptions = store.subjectInscriptions ∨
    (subject_inscribe subjects store student career code
        Method.POST).2.subjectInscriptions =
      store.subjectInscriptions ++ [(student, subject.code)] := by
  by_cases hmem : (student, subject.code) ∈ store.subjectInscriptions
  · left
    simp only [subject_inscribe, hfind, getOrCreateSubjectInscription, if_pos hmem]
    split <;> rw [getOrCreateGrade_subjIns]
  · right
    simp only [subject_inscribe, hfind, getOrCreateSubjectInscription, if_neg hmem]
    split <;> rw [getOrCreateGrade_subjIns]

theorem final_exam_inscribe_finalIns
    (finals : List FinalExam) (store : Store) (student career fid : Nat)
    (method : Method) :
    (final_exam_inscribe finals store student career fid method).2.finalInscriptions =
      store.finalInscriptions ∨
    ∃ final_exam,
      finals.find? (fun f => decide (f.id = fid ∧ f.subject.career = career)) =
        some final_exam ∧
      (final_exam_inscribe finals store student career fid
          method).2.finalInscriptions =
        store.finalInscriptions ++ [(student, final_exam.id)] := by
  rcases hf : finals.find? (fun f => decide (f.id = fid ∧ f.subject.career = career))
    with _ | final_exam
  · left
    simp only [final_exam_inscribe, hf]
  · rcases hlg : latestGrade store.grades student final_exam.subject.code with _ | g
    · left
      simp only [final_exam_inscribe, hf, hlg]
    · by_cases hst : g.status = StatusSubject.REGULAR
      · cases method
        · left
          simp only [final_exam_inscribe, hf, hlg, if_pos hst]
        · by_cases hmem : (student, final_exam.id) ∈ store.finalInscriptions
          · left
            simp only [final_exam_inscribe, hf, hlg, if_pos hst, if_pos hmem]
          · right
            exact ⟨final_exam, hf,
              by simp only [final_exam_inscribe, hf, hlg, if_pos hst, if_neg hmem]⟩
      · left
        simp only [final_exam_inscribe, hf, hlg, if_neg hst]

/-- C8: `subject_inscribe` answers NotFound (and changes nothing) whenever no
Subject with the given code exists in the student's own career, and
`final_exam_inscribe` answers NotFound (and changes nothing) whenever no
FinalExam with the given id exists whose subject belongs to the student's
career; consequently every SubjectInscription or FinalExamInscription row
present after a call either pre-existed or belongs to this student and a
subject / final inside the student's career. -/
theorem enrollment_not_found_outside_career
    (subjects : List Subject) (finals : List FinalExam) (store : Store)
    (student career : Nat) (code : String) (fid : Nat) (method : Method) :
    ((∀ s ∈ subjects, ¬(s.code = code ∧ s.career = career)) →
      subject_inscribe subjects store student career code method =
        (SubjectInscribeResult.notFound, store)) ∧
    ((∀ f ∈ finals, ¬(f.id = fid ∧ f.subject.career = career)) →
      final_exam_inscribe finals store student career fid method =
        (FinalInscribeResult.notFound, store)) ∧
    (∀ p ∈ (subject_inscribe subjects store student career code
        method).2.subjectInscriptions,
      p ∈ store.subjectInscriptions ∨
        (p.1 = student ∧ ∃ s ∈ subjects, s.code = p.2 ∧ s.career = career)) ∧
    (∀ q ∈ (final_exam_inscribe finals store student career fid
        method).2.finalInscriptions,
      q ∈ store.finalInscriptions ∨
        (q.1 = student ∧ ∃ f ∈ finals, f.id = q.2 ∧ f.subject.career = career)) := by
  refine ⟨?_, ?_, ?_, ?_⟩
  · intro h
    have hnone : subjects.find? (fun s => decide (s.code = code ∧ s.career = career)) =
        none := by
      rw [List.find?_eq_none]
      intro s hs
      simpa using h s hs
    simp only [subject_inscribe, hnone]
  · intro h
    have hnone : finals.find?
        (fun f => decide (f.id = fid ∧ f.subject.career = career)) = none := by
      rw [List.find?_eq_none]
      intro f hf
      simpa using h f hf
    simp only [final_exam_inscribe, hnone]
  · intro p hp
    rcases hf : subjects.find? (fun s => decide (s.code = code ∧ s.career = career))
      with _ | subject
    · rw [show (subject_inscribe subjects store student career code method).2 = store
          from by simp only [subject_inscribe, hf]] at hp
      exact Or.inl hp
    · cases method
      · rw [show (subject_inscribe subjects store student career code Method.GET).2 =
            store from by simp only [subject_inscribe, hf]] at hp
        exact Or.inl hp
      · have hprops := List.find?_some hf
        simp only [decide_eq_true_eq] at hprops
        rcases subject_inscribe_post_subjIns subjects store student career code
          subject hf with heq | heq
        · rw [heq] at hp
          exact Or.inl hp
        · rw [heq] at hp
          rcases List.mem_append.mp hp with hp | hp
          · exact Or.inl hp
          · rcases List.mem_singleton.mp hp with rfl
            exact Or.inr ⟨rfl,
              subject, List.mem_of_find?_eq_some hf, rfl, hprops.2⟩
  · intro q hq
    rcases final_exam_inscribe_finalIns finals store student career fid method
      with heq | ⟨final_exam, hf, heq⟩
    · rw [heq] at hq
      exact Or.inl hq
    · rw [heq] at hq
      rcases List.mem_append.mp hq with hq | hq
      · exact Or.inl hq
      · rcases List.mem_singleton.mp hq with rfl
        have hprops := List.find?_some hf
        simp only [decide_eq_true_eq] at hprops
        exact Or.inr ⟨rfl, final_exam, List.mem_of_find?_eq_some hf, rfl, hprops.2⟩

/-- C8 witness: the empty catalogues make both endpoints answer NotFound with
the store untouched. -/
theorem enrollment_not_found_outside_career_witness :
    subject_inscribe []
        { subjectInscriptions := [], grades := [], finalInscriptions := [], nextGradeId := 0 }
        7 1 "MAT1" Method.POST =
      (SubjectInscribeResult.notFound,
       { subjectInscriptions := [], grades := [], finalInscriptions := [], nextGradeId := 0 }) :=
  (enrollment_not_found_outside_career [] []
    { subjectInscriptions := [], grades := [], finalInscriptions := [], nextGradeId := 0 }
    7 1 "MAT1" 5 Method.POST).1 (by simp)

/-- C10: a GET request to `subject_inscribe` or `final_exam_inscribe` leaves
the store — every SubjectInscription, Grade and FinalExamInscription row —
exactly as it was; rows are only ever created under POST. -/
theorem get_requests_no_mutation
    (subjects : List Subject) (finals : List FinalExam) (store : Store)
    (student career : Nat) (code : String) (fid : Nat) :
    (subject_inscribe subjects store student career code Method.GET).2 = store ∧
    (final_exam_inscribe finals store student career fid Method.GET).2 = store := by
  constructor
  · rcases hf : subjects.find? (fun s => decide (s.code = code ∧ s.career = career))
      with _ | subject
    · simp only [subject_inscribe, hf]
    · simp only [subject_inscribe, hf]
  · rcases hf : finals.find? (fun f => decide (f.id = fid ∧ f.subject.career = career))
      with _ | final_exam
    · simp only [final_exam_inscribe, hf]
    · rcases hlg : latestGrade store.grades student final_exam.subject.code with _ | g
      · simp only [final_exam_inscribe, hf, hlg]
      · by_cases hst : g.status = StatusSubject.REGULAR
        · simp only [final_exam_inscribe, hf, hlg, if_pos hst]
        · simp only [final_exam_inscribe, hf, hlg, if_neg hst]

end SysAcad
